import Mathlib

/-!
Verification of the resource-reconciliation core of the
terraform-provider-azuread repository, as a shallow embedding in Lean 4.

Each Go function of the source that a claim touches is translated into a
Lean function over explicit inputs standing for the remote directory
service's responses.  A remote call returning `(value, httpStatus, error)`
is embedded as the inductive `Remote`: `ok v` for a nil error and
`fail s` for a non-nil error accompanied by HTTP status `s`.  Diagnostics
and the plugin-framework outcomes (normal return, error diagnostic,
import-as-exists, mark-as-gone / `d.SetId("")`, and a Go runtime panic
from a nil-pointer dereference) are embedded as the inductive `Outcome`.
Operations whose claims concern the sequence of side effects additionally
produce a trace of `Ev` events (lock, unlock, remote calls, poll probes).
-/

namespace AzureAD

/-- Result of a remote directory-service call that returns
`(value, httpStatus, error)` in Go: `ok v` embeds a nil error with payload
`v`; `fail s` embeds a non-nil error together with the HTTP status `s`
observed on the response. -/
inductive Remote (α : Type) where
  | ok (val : α)
  | fail (stat : Nat)
deriving Repr, DecidableEq

/-- HTTP 404, `http.StatusNotFound` in Go. -/
def statusNotFound : Nat := 404

/-- Outcome of a resource-lifecycle operation as seen by the plugin
framework.  `done` is a nil-error return, `errorDiag` an error
diagnostic, `importAsExists` the diagnostic produced by
`tf.ImportAsExistsDiag`, `gone` the mark-as-gone signal
(`metadata.MarkAsGone` or `d.SetId("")` followed by a nil return), and
`panicked` a Go runtime panic (nil-pointer dereference). -/
inductive Outcome where
  | done
  | errorDiag (msg : String)
  | importAsExists
  | gone
  | panicked
deriving Repr, DecidableEq

/-! ## C10: v1-to-v2 application instance state upgrade

Source: `internal/services/applications/migrations/application_resource.go`,
`ResourceApplicationInstanceStateUpgradeV1` (lines 1016-1026).  The raw
state map is embedded as its `"id"` entry (read with a string type
assertion by the source) together with the association list of all other
entries. -/

/-- Decide whether a character is an ASCII hexadecimal digit, as accepted
by Go's `hex.DecodeString`. -/
def isHexDigit (c : Char) : Bool :=
  c.isDigit || (97 ≤ c.toNat && c.toNat ≤ 102) || (65 ≤ c.toNat && c.toNat ≤ 70)

/-- Character admissible at position `i` of a 36-character UUID string:
a hyphen at positions 8, 13, 18 and 23, a hexadecimal digit elsewhere. -/
def uuidCharOk (i : Nat) (c : Char) : Bool :=
  if i == 8 || i == 13 || i == 18 || i == 23 then c == '-' else isHexDigit c

/-- Success condition of `uuid.ParseUUID` from hashicorp/go-uuid (a
dependency, not part of this repository): the string is exactly 36
characters, hyphenated at positions 8, 13, 18 and 23, all other
characters hexadecimal digits. -/
def parseUUIDOk (s : String) : Bool :=
  s.data.length == 36 &&
    (List.range 36).all fun i =>
      match s.data.get? i with
      | some c => uuidCharOk i c
      | none => false

/-- Rendering of `parse.NewApplicationID(objectId).ID()`: the v2-format
application resource ID, `/applications/` followed by the object ID
(the `parse` package is a sibling package of the migration source). -/
def applicationIdString (objectId : String) : String :=
  "/applications/" ++ objectId

/-- Raw Terraform state map for the application resource, split into the
`"id"` entry (asserted to a string by the source) and all other
entries. -/
structure RawState where
  id : String
  other : List (String × String)
deriving Repr, DecidableEq

/-- Embedding of `ResourceApplicationInstanceStateUpgradeV1`: parse the
existing `"id"` as a UUID; on failure return the error (with the state
unchanged, as the source returns `rawState` alongside the error); on
success replace `"id"` with the v2-format application ID and leave every
other entry unchanged. -/
def ResourceApplicationInstanceStateUpgradeV1 (rawState : RawState) :
    Except String RawState :=
  if parseUUIDOk rawState.id then
    Except.ok { rawState with id := applicationIdString rawState.id }
  else
    Except.error "parsing ID for azuread_application"

/-! ## Eventual-consistency polling (claim C1)

The post-create visibility wait of
`administrativeUnitMemberResourceCreate` is a
`pluginsdk.StateChangeConf` (source lines 154-170) configured with
`Pending: ["Waiting"]`, `Target: ["Done"]`, `MinTimeout: 1 second` and
`ContinuousTargetOccurence: 3`.  The `StateChangeConf` machinery itself
belongs to the Terraform plugin SDK, not to this repository, so its wait
loop is modelled from the spec below; the refresh closure and the
configuration values are translated from the source. -/

/-- Category of one observation made by a poll refresh call: the target
state was seen (`done`), a pending state was seen (`waiting`), or the
refresh returned a fatal error (`errored`). -/
inductive PollObs where
  | done
  | waiting
  | errored
deriving Repr, DecidableEq

/-- Result of running a poll over a finite script of observations:
`success n` means the poll returned successfully on its `n`-th refresh
call; `fatal` means a refresh error was surfaced; `timeout` means the
script (the caller's deadline) was exhausted first. -/
inductive PollOut where
  | success (calls : Nat)
  | fatal
  | timeout
deriving Repr, DecidableEq

/-- Shift a poll result by one earlier refresh call. -/
def PollOut.countUp : PollOut → PollOut
  | .success n => .success (n + 1)
  | .fatal => .fatal
  | .timeout => .timeout

/-- Modelled from the spec: the wait loop of the plugin SDK's
`StateChangeConf.WaitForStateContext` is not part of this repository's
sources.  Per spec 4.2 it calls the probe repeatedly (with a minimum
inter-call interval) until the target state has been observed for `need`
consecutive observations (hysteresis), surfacing a probe error as fatal
and an exhausted deadline as a timeout.  `consec` counts the consecutive
target observations already seen; a pending observation resets it. -/
def pollRun (need consec : Nat) : List PollObs → PollOut
  | [] => .timeout
  | o :: rest =>
    match o with
    | .errored => .fatal
    | .waiting => (pollRun need 0 rest).countUp
    | .done =>
      if need ≤ consec + 1 then .success 1
      else (pollRun need (consec + 1) rest).countUp

/-- Configuration of a `pluginsdk.StateChangeConf` (the fields the claims
mention). -/
structure StateChangeConf where
  pending : List String
  target : List String
  minTimeoutSeconds : Nat
  continuousTargetOccurence : Nat
deriving Repr, DecidableEq

/-- The poll configuration of `administrativeUnitMemberResourceCreate`
(source lines 154-159): waiting for `Done`, minimum inter-probe interval
of 1 second, 3 consecutive target observations required. -/
def auCreatePollConf : StateChangeConf :=
  { pending := ["Waiting"],
    target := ["Done"],
    minTimeoutSeconds := 1,
    continuousTargetOccurence := 3 }

/-- Embedding of the `Refresh` closure of
`administrativeUnitMemberResourceCreate` (source lines 160-169): a
`GetMember` 404 maps to the pending state `Waiting` (absent), any other
error is fatal, and a successful fetch maps to the target state `Done`
(present). -/
def auCreateRefresh : Remote Unit → PollObs
  | .fail s => if s == statusNotFound then .waiting else .errored
  | .ok _ => .done

/-- The post-create visibility poll of
`administrativeUnitMemberResourceCreate`, run over a script of
`GetMember` probe results. -/
def auCreatePoll (probes : List (Remote Unit)) : PollOut :=
  pollRun auCreatePollConf.continuousTargetOccurence 0 (probes.map auCreateRefresh)

/-- The scripted probe sequence of claim C1: absent, present, absent,
present, present, present (absent = `GetMember` reports 404, present =
`GetMember` succeeds). -/
def flipProbeSeq : List (Remote Unit) :=
  [.fail statusNotFound, .ok (), .fail statusNotFound, .ok (), .ok (), .ok ()]

/-! ## Traces of the lifecycle operations (claims C2, C3, C6, C7)

Each embedded operation returns the list of events it performed together
with its outcome.  The lock/unlock pair produced by
`tf.LockByName ... defer tf.UnlockByName ...` is embedded by `withLock`:
Go's `defer` runs the unlock on every exit path of the surrounding
function, so the unlock event closes the trace of every branch of the
body. -/

/-- Observable events of the embedded lifecycle operations. -/
inductive Ev where
  | lock (scope key : String)
  | unlock (scope key : String)
  | getAdministrativeUnit (auId : String)
  | getMember (auId memberId : String)
  | getDirectoryObject (memberId : String)
  | addMembers (auId memberId : String)
  | removeMembers (auId memberId : String)
  | pollVisibility
  | pollDeletion
  | createApplication
  | getApplication (appId : String)
  | updateApplication (appId : String)
  | deleteApplication (appId : String)
deriving Repr, DecidableEq

/-- Embedding of the `tf.LockByName(scope, key)` /
`defer tf.UnlockByName(scope, key)` pattern around an operation body. -/
def withLock (scope key : String) (body : List Ev × Outcome) : List Ev × Outcome :=
  (Ev.lock scope key :: body.1 ++ [Ev.unlock scope key], body.2)

/-- The lock scope used by the administrative unit member resource
(`administrativeUnitResourceName`, declared in a sibling file of the same
package; its exact value is immaterial to every claim). -/
def administrativeUnitResourceName : String := "azuread_administrative_unit"

/-- The lock scope used by the application registration resource
(`applicationResourceName`, declared in a sibling file of the same
package; its exact value is immaterial to every claim). -/
def applicationResourceName : String := "azuread_application"

/-- Modelled from the spec: `helpers.WaitForDeletion` is not part of this
repository's sources.  Per spec 4.2 it is the wait-for-deletion-complete
direction of the consistency poller: it repeatedly calls the supplied
probe until the probe reports the object gone, surfacing a probe error
as fatal and an exhausted deadline as a timeout.  The probe closures in
the sources map a 404 to gone, any other error to a fatal error, and a
successful fetch to still-present (keep polling); the script below holds
the underlying remote fetch results. -/
def waitForDeletion : List (Remote Unit) → PollOut
  | [] => .timeout
  | .fail s :: _ => if s == statusNotFound then .success 1 else .fatal
  | .ok _ :: rest => (waitForDeletion rest).countUp

/-- Remote responses consumed by `administrativeUnitMemberResourceRead`. -/
structure AuMemberReadEnv where
  idOk : Bool
  auId : String
  memberId : String
  getMember : Remote Unit
deriving Repr, DecidableEq

/-- Embedding of `administrativeUnitMemberResourceRead` (source lines
180-201): a parse failure of the tracked ID is an error diagnostic; a
404 from `GetMember` removes the resource from state (`d.SetId("")`,
nil diagnostics); any other `GetMember` error is surfaced; otherwise the
attributes are set and the read succeeds. -/
def administrativeUnitMemberResourceRead (env : AuMemberReadEnv) :
    List Ev × Outcome :=
  if !env.idOk then ([], .errorDiag "parsing administrative unit member ID")
  else
    match env.getMember with
    | .fail s =>
      if s == statusNotFound then ([Ev.getMember env.auId env.memberId], .gone)
      else ([Ev.getMember env.auId env.memberId], .errorDiag "retrieving member")
    | .ok _ => ([Ev.getMember env.auId env.memberId], .done)

/-- Remote responses consumed by `administrativeUnitMemberResourceCreate`. -/
structure AuMemberCreateEnv where
  auId : String
  memberId : String
  getAU : Remote Unit
  probeMember : Remote Unit
  getDirObj : Remote (Option Unit)
  addMembersRes : Remote Unit
  hasDeadline : Bool
  pollProbes : List (Remote Unit)
  readResult : Remote Unit
deriving Repr, DecidableEq

/-- Body of `administrativeUnitMemberResourceCreate` (source lines
116-177), everything between `tf.LockByName` and the deferred
`tf.UnlockByName`: fetch the administrative unit (404 and other errors
are diagnostics), probe the membership (`GetMember` succeeding means the
member already exists and yields `tf.ImportAsExistsDiag`; a non-404
error is a diagnostic), fetch the member principal object (an error or a
nil object is a diagnostic), call `AddMembers`, then poll for visibility
with `auCreatePoll`, and finish with a recursive call to the Read
function. -/
def auMemberCreateBody (env : AuMemberCreateEnv) : List Ev × Outcome :=
  match env.getAU with
  | .fail s =>
    if s == statusNotFound then
      ([Ev.getAdministrativeUnit env.auId], .errorDiag "administrative unit was not found")
    else
      ([Ev.getAdministrativeUnit env.auId], .errorDiag "retrieving administrative unit")
  | .ok _ =>
    match env.probeMember with
    | .ok _ =>
      ([Ev.getAdministrativeUnit env.auId, Ev.getMember env.auId env.memberId],
        .importAsExists)
    | .fail s =>
      if s != statusNotFound then
        ([Ev.getAdministrativeUnit env.auId, Ev.getMember env.auId env.memberId],
          .errorDiag "checking for existing membership")
      else
        match env.getDirObj with
        | .fail _ =>
          ([Ev.getAdministrativeUnit env.auId, Ev.getMember env.auId env.memberId,
            Ev.getDirectoryObject env.memberId],
            .errorDiag "could not retrieve member principal object")
        | .ok none =>
          ([Ev.getAdministrativeUnit env.auId, Ev.getMember env.auId env.memberId,
            Ev.getDirectoryObject env.memberId],
            .errorDiag "returned memberObject was nil")
        | .ok (some _) =>
          match env.addMembersRes with
          | .fail _ =>
            ([Ev.getAdministrativeUnit env.auId, Ev.getMember env.auId env.memberId,
              Ev.getDirectoryObject env.memberId, Ev.addMembers env.auId env.memberId],
              .errorDiag "adding member to administrative unit")
          | .ok _ =>
            if !env.hasDeadline then
              ([Ev.getAdministrativeUnit env.auId, Ev.getMember env.auId env.memberId,
                Ev.getDirectoryObject env.memberId, Ev.addMembers env.auId env.memberId],
                .errorDiag "context has no deadline")
            else
              match auCreatePoll env.pollProbes with
              | .success _ =>
                ([Ev.getAdministrativeUnit env.auId, Ev.getMember env.auId env.memberId,
                  Ev.getDirectoryObject env.memberId, Ev.addMembers env.auId env.memberId,
                  Ev.pollVisibility] ++
                    (administrativeUnitMemberResourceRead
                      { idOk := true, auId := env.auId, memberId := env.memberId,
                        getMember := env.readResult }).1,
                  (administrativeUnitMemberResourceRead
                    { idOk := true, auId := env.auId, memberId := env.memberId,
                      getMember := env.readResult }).2)
              | _ =>
                ([Ev.getAdministrativeUnit env.auId, Ev.getMember env.auId env.memberId,
                  Ev.getDirectoryObject env.memberId, Ev.addMembers env.auId env.memberId,
                  Ev.pollVisibility],
                  .errorDiag "waiting for member to reflect")

/-- Embedding of `administrativeUnitMemberResourceCreate` (source lines
106-178): the body runs inside the named lock on the administrative
unit ID. -/
def administrativeUnitMemberResourceCreate (env : AuMemberCreateEnv) :
    List Ev × Outcome :=
  withLock administrativeUnitResourceName env.auId (auMemberCreateBody env)

/-- Remote responses consumed by `administrativeUnitMemberResourceDelete`. -/
structure AuMemberDeleteEnv where
  idOk : Bool
  auId : String
  memberId : String
  removeMembersRes : Remote Unit
  deletionProbes : List (Remote Unit)
deriving Repr, DecidableEq

/-- Embedding of `administrativeUnitMemberResourceDelete` (source lines
203-234): a parse failure is a diagnostic; inside the named lock,
`RemoveMembers` is called (any error, including a 404, is surfaced as a
diagnostic with no not-found special case), then the absence of the
membership is polled via `helpers.WaitForDeletion`. -/
def auMemberDeleteBody (env : AuMemberDeleteEnv) : List Ev × Outcome :=
  match env.removeMembersRes with
  | .fail _ =>
    ([Ev.removeMembers env.auId env.memberId],
      .errorDiag "removing member from administrative unit")
  | .ok _ =>
    match waitForDeletion env.deletionProbes with
    | .success _ =>
      ([Ev.removeMembers env.auId env.memberId, Ev.pollDeletion], .done)
    | _ =>
      ([Ev.removeMembers env.auId env.memberId, Ev.pollDeletion],
        .errorDiag "waiting for removal of member")

/-- The full delete operation: parse check, then the body inside the
named lock on the administrative unit ID. -/
def administrativeUnitMemberResourceDelete (env : AuMemberDeleteEnv) :
    List Ev × Outcome :=
  if !env.idOk then ([], .errorDiag "parsing administrative unit member ID")
  else withLock administrativeUnitResourceName env.auId (auMemberDeleteBody env)

/-- Event classifiers used by the lock and trace claims. -/
def isLockEv : Ev → Bool
  | .lock _ _ => true
  | _ => false

/-- Recogniser for unlock events. -/
def isUnlockEv : Ev → Bool
  | .unlock _ _ => true
  | _ => false

/-- Recogniser for the visibility/absence poll events. -/
def isPollEv : Ev → Bool
  | .pollVisibility => true
  | .pollDeletion => true
  | _ => false

/-- Recogniser for the remote mutating calls. -/
def isMutatingEv : Ev → Bool
  | .addMembers _ _ => true
  | .removeMembers _ _ => true
  | .createApplication => true
  | .updateApplication _ => true
  | .deleteApplication _ => true
  | _ => false

/-! ## Application registration resource (claims C2-C7)

Source: the `ApplicationRegistrationResource` methods in
`internal/services/applications` (lines 554-826 of the applications
source bundle). -/

/-- Remote responses consumed by `ApplicationRegistrationResource.Create`:
`decodeOk` embeds `metadata.Decode` succeeding, and the create result
carries the object ID returned by the API (`none` for a nil ID). -/
structure AppRegCreateEnv where
  decodeOk : Bool
  createResult : Remote (Option String)
deriving Repr, DecidableEq

/-- Embedding of `ApplicationRegistrationResource.Create` (source lines
554-612): decode the model, issue the remote create call, fail when the
returned object ID is nil or empty, otherwise set the ID and return.
There is no existence probe, no lock, and no visibility poll. -/
def ApplicationRegistrationResourceCreate (env : AppRegCreateEnv) :
    List Ev × Outcome :=
  if !env.decodeOk then ([], .errorDiag "decoding")
  else
    match env.createResult with
    | .fail _ => ([Ev.createApplication], .errorDiag "creating application")
    | .ok idOpt =>
      if idOpt.getD "" == "" then
        ([Ev.createApplication], .errorDiag "object ID returned for application is nil or empty")
      else
        ([Ev.createApplication], .done)

/-- Remote responses consumed by `ApplicationRegistrationResource.Read`:
the get result's payload is `none` when the API returned a nil object. -/
structure AppRegReadEnv where
  idOk : Bool
  appId : String
  getResult : Remote (Option Unit)
deriving Repr, DecidableEq

/-- Embedding of `ApplicationRegistrationResource.Read` (source lines
614-679): a parse failure of the tracked ID is an error; a 404 from the
fetch is `metadata.MarkAsGone`; any other fetch error is surfaced; a nil
result is an error; otherwise the state is encoded and the read
succeeds. -/
def ApplicationRegistrationResourceRead (env : AppRegReadEnv) :
    List Ev × Outcome :=
  if !env.idOk then ([], .errorDiag "parsing application ID")
  else
    match env.getResult with
    | .fail s =>
      if s == statusNotFound then ([Ev.getApplication env.appId], .gone)
      else ([Ev.getApplication env.appId], .errorDiag "retrieving application")
    | .ok none => ([Ev.getApplication env.appId], .errorDiag "result was nil")
    | .ok (some _) => ([Ev.getApplication env.appId], .done)

/-- Remote responses consumed by `ApplicationRegistrationResource.Delete`. -/
structure AppRegDeleteEnv where
  idOk : Bool
  appId : String
  deleteResult : Remote Unit
  deletionProbes : List (Remote Unit)
deriving Repr, DecidableEq

/-- Embedding of `ApplicationRegistrationResource.Delete` (source lines
791-826): a parse failure is an error; any error from the remote delete
call, including a 404, is surfaced (the source has no not-found special
case on the delete call itself); on success the absence of the
application is polled via `helpers.WaitForDeletion`, whose probe treats
a 404 as completion. -/
def ApplicationRegistrationResourceDelete (env : AppRegDeleteEnv) :
    List Ev × Outcome :=
  if !env.idOk then ([], .errorDiag "parsing application ID")
  else
    match env.deleteResult with
    | .fail _ => ([Ev.deleteApplication env.appId], .errorDiag "deleting application")
    | .ok _ =>
      match waitForDeletion env.deletionProbes with
      | .success _ => ([Ev.deleteApplication env.appId, Ev.pollDeletion], .done)
      | _ =>
        ([Ev.deleteApplication env.appId, Ev.pollDeletion],
          .errorDiag "waiting for deletion")

/-! ## Application registration update payload (claim C5)

Source: `ApplicationRegistrationResource.Update` (lines 681-789).  The
outgoing `msgraph.Application` is built starting from its zero value
(every field a nil pointer, hence omitted from the serialized request)
and each field is assigned only under the matching `rd.HasChange`
guard.  `tf.NullableString` always returns a non-nil pointer, so an
assigned field is always present in the payload. -/

/-- The updatable attributes of the application registration model
(`ApplicationRegistrationModel`, source lines 365-385). -/
structure AppRegModel where
  displayName : String
  description : String
  groupMembershipClaims : List String
  homepageUrl : String
  implicitAccessTokenIssuanceEnabled : Bool
  implicitIdTokenIssuanceEnabled : Bool
  logoutUrl : String
  marketingUrl : String
  notes : String
  privacyStatementUrl : String
  requestedAccessTokenVersion : Int
  serviceManagementReference : String
  signInAudience : String
  supportUrl : String
  termsOfServiceUrl : String
deriving Repr, DecidableEq

/-- Which attributes the caller flagged as changed (`rd.HasChange`). -/
structure AppRegChanges where
  displayName : Bool
  description : Bool
  groupMembershipClaims : Bool
  homepageUrl : Bool
  implicitAccessTokenIssuanceEnabled : Bool
  implicitIdTokenIssuanceEnabled : Bool
  logoutUrl : Bool
  marketingUrl : Bool
  notes : Bool
  privacyStatementUrl : Bool
  requestedAccessTokenVersion : Bool
  serviceManagementReference : Bool
  signInAudience : Bool
  supportUrl : Bool
  termsOfServiceUrl : Bool
deriving Repr, DecidableEq

/-- The `msgraph.InformationalUrl` sub-payload; `none` fields are nil
pointers, omitted from the serialized request. -/
structure MsgraphInformationalUrl where
  marketingUrl : Option String
  privacyStatementUrl : Option String
  supportUrl : Option String
  termsOfServiceUrl : Option String
deriving Repr, DecidableEq

/-- The `msgraph.ImplicitGrantSettings` sub-payload. -/
structure MsgraphImplicitGrantSettings where
  enableAccessTokenIssuance : Option Bool
  enableIdTokenIssuance : Option Bool
deriving Repr, DecidableEq

/-- The `msgraph.ApplicationWeb` sub-payload. -/
structure MsgraphApplicationWeb where
  homePageUrl : Option String
  logoutUrl : Option String
  implicitGrantSettings : Option MsgraphImplicitGrantSettings
deriving Repr, DecidableEq

/-- The outgoing `msgraph.Application` update payload (the fields
`ApplicationRegistrationResource.Update` can assign).  `api` embeds the
`msgraph.ApplicationApi` struct, which carries only
`RequestedAccessTokenVersion` here. -/
structure MsgraphApplication where
  id : Option String
  displayName : Option String
  description : Option String
  groupMembershipClaims : Option (List String)
  notes : Option String
  api : Option Int
  serviceManagementReference : Option String
  signInAudience : Option String
  info : Option MsgraphInformationalUrl
  web : Option MsgraphApplicationWeb
deriving Repr, DecidableEq

/-- Embedding of the payload construction of
`ApplicationRegistrationResource.Update` (source lines 701-779): the
payload starts as the zero value holding only the directory object ID,
and each attribute is assigned exactly under its `rd.HasChange` guard;
the `Info` and `Web` sub-structs are allocated when any of their
attributes changed, and within them each field is again guarded. -/
def appRegUpdatePayload (m : AppRegModel) (ch : AppRegChanges) (appId : String) :
    MsgraphApplication :=
  { id := some appId
    displayName := if ch.displayName then some m.displayName else none
    description := if ch.description then some m.description else none
    groupMembershipClaims :=
      if ch.groupMembershipClaims then some m.groupMembershipClaims else none
    notes := if ch.notes then some m.notes else none
    api := if ch.requestedAccessTokenVersion then some m.requestedAccessTokenVersion else none
    serviceManagementReference :=
      if ch.serviceManagementReference then some m.serviceManagementReference else none
    signInAudience := if ch.signInAudience then some m.signInAudience else none
    info :=
      if ch.marketingUrl || ch.privacyStatementUrl || ch.supportUrl || ch.termsOfServiceUrl then
        some
          { marketingUrl := if ch.marketingUrl then some m.marketingUrl else none
            privacyStatementUrl :=
              if ch.privacyStatementUrl then some m.privacyStatementUrl else none
            supportUrl := if ch.supportUrl then some m.supportUrl else none
            termsOfServiceUrl :=
              if ch.termsOfServiceUrl then some m.termsOfServiceUrl else none }
      else none
    web :=
      if ch.implicitAccessTokenIssuanceEnabled || ch.homepageUrl
          || ch.implicitIdTokenIssuanceEnabled || ch.logoutUrl then
        some
          { homePageUrl := if ch.homepageUrl then some m.homepageUrl else none
            logoutUrl := if ch.logoutUrl then some m.logoutUrl else none
            implicitGrantSettings :=
              if ch.implicitAccessTokenIssuanceEnabled || ch.implicitIdTokenIssuanceEnabled then
                some
                  { enableAccessTokenIssuance :=
                      if ch.implicitAccessTokenIssuanceEnabled then
                        some m.implicitAccessTokenIssuanceEnabled
                      else none
                    enableIdTokenIssuance :=
                      if ch.implicitIdTokenIssuanceEnabled then
                        some m.implicitIdTokenIssuanceEnabled
                      else none }
              else none }
      else none }

/-- Whether the serialized update payload contains the display name. -/
def MsgraphApplication.hasDisplayName (p : MsgraphApplication) : Bool :=
  p.displayName.isSome

/-- Whether the serialized update payload contains the description. -/
def MsgraphApplication.hasDescription (p : MsgraphApplication) : Bool :=
  p.description.isSome

/-- Whether the payload contains the group membership claims. -/
def MsgraphApplication.hasGroupMembershipClaims (p : MsgraphApplication) : Bool :=
  p.groupMembershipClaims.isSome

/-- Whether the payload contains the notes attribute. -/
def MsgraphApplication.hasNotes (p : MsgraphApplication) : Bool :=
  p.notes.isSome

/-- Whether the payload contains the requested access token version. -/
def MsgraphApplication.hasRequestedAccessTokenVersion (p : MsgraphApplication) : Bool :=
  p.api.isSome

/-- Whether the payload contains the service management reference. -/
def MsgraphApplication.hasServiceManagementReference (p : MsgraphApplication) : Bool :=
  p.serviceManagementReference.isSome

/-- Whether the payload contains the sign-in audience. -/
def MsgraphApplication.hasSignInAudience (p : MsgraphApplication) : Bool :=
  p.signInAudience.isSome

/-- Whether the payload contains the marketing URL. -/
def MsgraphApplication.hasMarketingUrl (p : MsgraphApplication) : Bool :=
  match p.info with
  | some i => i.marketingUrl.isSome
  | none => false

/-- Whether the payload contains the privacy statement URL. -/
def MsgraphApplication.hasPrivacyStatementUrl (p : MsgraphApplication) : Bool :=
  match p.info with
  | some i => i.privacyStatementUrl.isSome
  | none => false

/-- Whether the payload contains the support URL. -/
def MsgraphApplication.hasSupportUrl (p : MsgraphApplication) : Bool :=
  match p.info with
  | some i => i.supportUrl.isSome
  | none => false

/-- Whether the payload contains the terms-of-service URL. -/
def MsgraphApplication.hasTermsOfServiceUrl (p : MsgraphApplication) : Bool :=
  match p.info with
  | some i => i.termsOfServiceUrl.isSome
  | none => false

/-- Whether the payload contains the homepage URL. -/
def MsgraphApplication.hasHomepageUrl (p : MsgraphApplication) : Bool :=
  match p.web with
  | some w => w.homePageUrl.isSome
  | none => false

/-- Whether the payload contains the logout URL. -/
def MsgraphApplication.hasLogoutUrl (p : MsgraphApplication) : Bool :=
  match p.web with
  | some w => w.logoutUrl.isSome
  | none => false

/-- Whether the payload contains the implicit access token issuance
flag. -/
def MsgraphApplication.hasImplicitAccessTokenIssuance (p : MsgraphApplication) : Bool :=
  match p.web with
  | some w =>
    match w.implicitGrantSettings with
    | some g => g.enableAccessTokenIssuance.isSome
    | none => false
  | none => false

/-- Whether the payload contains the implicit ID token issuance flag. -/
def MsgraphApplication.hasImplicitIdTokenIssuance (p : MsgraphApplication) : Bool :=
  match p.web with
  | some w =>
    match w.implicitGrantSettings with
    | some g => g.enableIdTokenIssuance.isSome
    | none => false
  | none => false

/-- Remote responses consumed by
`ApplicationRegistrationResource.Update` around the payload
construction. -/
structure AppRegUpdateEnv where
  idOk : Bool
  decodeOk : Bool
  appId : String
  model : AppRegModel
  changes : AppRegChanges
  updateResult : Remote Unit
deriving Repr, DecidableEq

/-- Embedding of `ApplicationRegistrationResource.Update` (source lines
681-789): parse the tracked ID and decode the model (errors surface
before the lock), then inside the named lock on the application ID build
the payload restricted to the changed attributes and issue the remote
update call. -/
def appRegUpdateBody (env : AppRegUpdateEnv) : List Ev × Outcome :=
  match env.updateResult with
  | .fail _ =>
    ([Ev.updateApplication env.appId], .errorDiag "updating application")
  | .ok _ => ([Ev.updateApplication env.appId], .done)

/-- The full update operation: parse and decode checks surface before the
lock, then the body runs inside the named lock on the application ID. -/
def ApplicationRegistrationResourceUpdate (env : AppRegUpdateEnv) :
    List Ev × Outcome :=
  if !env.idOk then ([], .errorDiag "parsing application ID")
  else if !env.decodeOk then ([], .errorDiag "decoding")
  else withLock applicationResourceName env.appId (appRegUpdateBody env)

/-! ## Privileged access group schedule resources (claims C2, C4, C5, C9)

Sources:
`internal/services/identitygovernance/privileged_access_group_assignment_schedule_resource.go`
and
`internal/services/identitygovernance/privileged_access_group_eligiblity_schedule_request.go`.
The `msgraph` request/schedule structs are embedded with `Option` fields
standing for Go pointers (`none` = nil). -/

/-- The `msgraph` status constant `Canceled`. -/
def PagStatusCanceled : String := "Canceled"

/-- The `msgraph` status constant `Revoked`. -/
def PagStatusRevoked : String := "Revoked"

/-- The `msgraph` status constant `Granted`. -/
def PagStatusGranted : String := "Granted"

/-- The `msgraph` action constant `adminAssign`. -/
def PagActionAdminAssign : String := "adminAssign"

/-- The `msgraph` action constant `adminRemove`. -/
def PagActionAdminRemove : String := "adminRemove"

/-- The `msgraph.ExpirationPattern` struct (all fields Go pointers). -/
structure ExpirationPattern where
  patternType : Option String
  endDateTime : Option String
  duration : Option String
deriving Repr, DecidableEq

/-- The `msgraph.RequestSchedule` struct. -/
structure RequestSchedule where
  startDateTime : Option String
  expiration : Option ExpirationPattern
deriving Repr, DecidableEq

/-- The `msgraph.TicketInfo` struct. -/
structure TicketInfo where
  ticketNumber : Option String
  ticketSystem : Option String
deriving Repr, DecidableEq

/-- A privileged access group schedule request as returned by the remote
List call (`msgraph.PrivilegedAccessGroup...ScheduleRequest`); every
pointer field may be nil. -/
structure PagRequestData where
  id : Option String
  accessId : String
  groupId : Option String
  justification : Option String
  principalId : Option String
  scheduleInfo : Option RequestSchedule
  status : String
  targetScheduleId : Option String
  ticketInfo : Option TicketInfo
deriving Repr, DecidableEq

/-- A privileged access group schedule as returned by the schedule Get
call (`msgraph.PrivilegedAccessGroupAssignmentSchedule`). -/
structure PagScheduleData where
  accessId : String
  groupId : Option String
  principalId : Option String
  status : String
  scheduleInfo : Option RequestSchedule
deriving Repr, DecidableEq

/-- Embedding of `cancelAssignmentRequest` (assignment schedule source
lines 282-291): a 404 from the remote Cancel call is
`metadata.MarkAsGone`; any other error is surfaced; success returns
nil. -/
def cancelAssignmentRequest (cancelRes : Remote Unit) : Outcome :=
  match cancelRes with
  | .fail s => if s == statusNotFound then .gone else .errorDiag "cancelling"
  | .ok _ => .done

/-- Embedding of `revokeAssignmentRequest` (assignment schedule source
lines 293-311): the revoke is a Create call with action `adminRemove`; a
404 is `metadata.MarkAsGone`; any other error is surfaced; a nil result
is an error; success returns nil. -/
def revokeAssignmentRequest (createRes : Remote (Option Unit)) : Outcome :=
  match createRes with
  | .fail s => if s == statusNotFound then .gone else .errorDiag "retrieving"
  | .ok none => .errorDiag "API error, result was nil"
  | .ok (some _) => .done

/-- Embedding of `cancelEligibilityRequest` (eligibility schedule request
source lines 219-228): a 404 from the remote Cancel call is
`metadata.MarkAsGone`; any other error is surfaced; success also returns
`metadata.MarkAsGone`. -/
def cancelEligibilityRequest (cancelRes : Remote Unit) : Outcome :=
  match cancelRes with
  | .fail s => if s == statusNotFound then .gone else .errorDiag "cancelling"
  | .ok _ => .gone

/-- Embedding of `revokeEligibilityRequest` (eligibility schedule request
source lines 230-248): a 404 from the revoking Create call is
`metadata.MarkAsGone`; any other error is surfaced; a nil result is an
error; success returns `metadata.MarkAsGone`. -/
def revokeEligibilityRequest (createRes : Remote (Option Unit)) : Outcome :=
  match createRes with
  | .fail s => if s == statusNotFound then .gone else .errorDiag "retrieving"
  | .ok none => .errorDiag "API error, result was nil"
  | .ok (some _) => .gone

/-- Remote responses consumed by
`PrivilegedAccessGroupAssignmentScheduleResource.Read`: the schedule Get
result and the request List result (whose payload is `none` when the API
returned a nil slice). -/
structure PagAssignReadEnv where
  idOk : Bool
  decodeOk : Bool
  scheduleGet : Remote PagScheduleData
  requestsList : Remote (Option (List PagRequestData))
deriving Repr, DecidableEq

/-- Embedding of `PrivilegedAccessGroupAssignmentScheduleResource.Read`
(assignment schedule source lines 100-192): a schedule Get error other
than 404 is surfaced; a List error is surfaced; when the request list is
nil or empty and the schedule Get reported 404, the resource is marked
gone; otherwise the state is populated, from the newest request when one
exists and from the schedule when not, using nil-safe `pointer.From`
reads throughout. -/
def PrivilegedAccessGroupAssignmentScheduleResourceRead
    (env : PagAssignReadEnv) : Outcome :=
  if !env.idOk then .errorDiag "parsing schedule ID"
  else if !env.decodeOk then .errorDiag "decoding"
  else
    match env.scheduleGet with
    | .fail s =>
      if s != statusNotFound then .errorDiag "retrieving schedule"
      else
        match env.requestsList with
        | .fail _ => .errorDiag "listing requests"
        | .ok none => .gone
        | .ok (some []) => .gone
        | .ok (some (_ :: _)) => .done
    | .ok _ =>
      match env.requestsList with
      | .fail _ => .errorDiag "listing requests"
      | .ok _ => .done

/-- Panic-aware dereference of a Go pointer: reading through nil panics,
otherwise the continuation runs with the value. -/
def orPanic {α : Type} (o : Option α) (k : α → Outcome) : Outcome :=
  match o with
  | none => Outcome.panicked
  | some a => k a

/-- Remote responses consumed by
`PrivilegedAccessGroupEligibilityScheduleRequestResource.Read`. -/
structure PagEligReadEnv where
  idOk : Bool
  decodeOk : Bool
  requestsList : Remote (Option (List PagRequestData))
deriving Repr, DecidableEq

/-- Embedding of
`PrivilegedAccessGroupEligibilityScheduleRequestResource.Read`
(eligibility schedule request source lines 98-171).  Unlike its
assignment sibling, this Read dereferences the List result and the
fields of the newest request without nil checks: `len(*requests)` panics
on a nil slice pointer, and on the populate path `*request.GroupId`,
`*request.Justification`, `*request.ScheduleInfo.Expiration.Type`,
`*request.PrincipalId`, `request.ScheduleInfo.StartDateTime.Format`,
`*request.TargetScheduleId`, `request.TicketInfo.TicketNumber` and
`*request.ID` each panic when the corresponding pointer is nil, in that
order. -/
def PrivilegedAccessGroupEligibilityScheduleRequestResourceRead
    (env : PagEligReadEnv) : Outcome :=
  if !env.idOk then .errorDiag "parsing eligibility schedule request ID"
  else if !env.decodeOk then .errorDiag "decoding"
  else
    match env.requestsList with
    | .fail _ => .errorDiag "listing requests"
    | .ok none => .panicked
    | .ok (some []) => .gone
    | .ok (some (request :: _)) =>
      if request.status == PagStatusCanceled || request.status == PagStatusRevoked then
        .gone
      else
        orPanic request.groupId fun _ =>
        orPanic request.justification fun _ =>
        orPanic request.scheduleInfo fun si =>
        orPanic si.expiration fun ex =>
        orPanic ex.patternType fun _ =>
        orPanic request.principalId fun _ =>
        orPanic si.startDateTime fun _ =>
        orPanic request.targetScheduleId fun _ =>
        orPanic request.ticketInfo fun _ =>
        orPanic request.id fun _ =>
        Outcome.done

/-- The attributes of the decoded privileged access group schedule model
(`PrivilegedAccessGroupScheduleModel`) that the Update payload uses. -/
structure PagScheduleModel where
  assignmentType : String
  principalId : String
  groupId : String
  justification : String
  ticketNumber : String
  ticketSystem : String
deriving Repr, DecidableEq

/-- The outgoing
`msgraph.PrivilegedAccessGroupAssignmentScheduleRequest` payload. -/
structure PagScheduleRequestPayload where
  accessId : String
  principalId : Option String
  groupId : Option String
  action : String
  justification : Option String
  scheduleInfo : Option RequestSchedule
  ticketInfo : Option TicketInfo
deriving Repr, DecidableEq

/-- Embedding of the payload construction of
`PrivilegedAccessGroupAssignmentScheduleResource.Update` (assignment
schedule source lines 210-224): a full new schedule request is built
from the decoded model — access ID, principal, group, action,
justification and schedule are always included, and the ticket info is
included whenever either ticket field is non-empty.  No `HasChange`
flag is consulted anywhere in this Update. -/
def pagAssignmentUpdatePayload (m : PagScheduleModel) (schedule : RequestSchedule) :
    PagScheduleRequestPayload :=
  { accessId := m.assignmentType
    principalId := some m.principalId
    groupId := some m.groupId
    action := PagActionAdminAssign
    justification := some m.justification
    scheduleInfo := some schedule
    ticketInfo :=
      if m.ticketNumber != "" || m.ticketSystem != "" then
        some { ticketNumber := some m.ticketNumber, ticketSystem := some m.ticketSystem }
      else none }

/-! ## Named mutex registry (claim C8)

`tf.LockByName` and `tf.UnlockByName` (the named mutex registry of spec
4.1) are not part of this repository's sources; the model below is
modelled from the spec.  Two concurrent mutating operations are reduced
to their lock-relevant skeleton: acquire the named lock, run the
critical section (the remote mutating call plus the consistency poll),
release.  Program counter values: 0 = before acquisition, 1 = holding
the lock inside the critical section, 2 = finished. -/

/-- A configuration of the two-operation interleaving: the program
counter of each operation and the multiset of currently held lock
keys. -/
structure LockConf where
  pc1 : Nat
  pc2 : Nat
  held : List String
deriving Repr, DecidableEq

/-- Modelled from the spec: one interleaving step of the two operations.
`Lock(scope, key)` blocks until no other operation holds the same key,
so the acquisition step is enabled only when the key is free; the
release step removes it. -/
inductive LockStep (k1 k2 : String) : LockConf → LockConf → Prop where
  | lock1 (c : LockConf) (hpc : c.pc1 = 0) (hfree : k1 ∉ c.held) :
      LockStep k1 k2 c { pc1 := 1, pc2 := c.pc2, held := k1 :: c.held }
  | unlock1 (c : LockConf) (hpc : c.pc1 = 1) :
      LockStep k1 k2 c { pc1 := 2, pc2 := c.pc2, held := c.held.erase k1 }
  | lock2 (c : LockConf) (hpc : c.pc2 = 0) (hfree : k2 ∉ c.held) :
      LockStep k1 k2 c { pc1 := c.pc1, pc2 := 1, held := k2 :: c.held }
  | unlock2 (c : LockConf) (hpc : c.pc2 = 1) :
      LockStep k1 k2 c { pc1 := c.pc1, pc2 := 2, held := c.held.erase k2 }

/-- Configurations reachable from the initial one (both operations
before acquisition, no key held) by interleaving steps. -/
inductive LockReach (k1 k2 : String) : LockConf → Prop where
  | init : LockReach k1 k2 { pc1 := 0, pc2 := 0, held := [] }
  | step (c c' : LockConf) (h : LockReach k1 k2 c) (hs : LockStep k1 k2 c c') :
      LockReach k1 k2 c'

/-- Inductive invariant of the lock model: an operation inside its
critical section holds its key, and two operations simultaneously inside
their critical sections hold distinct keys. -/
def LockInv (k1 k2 : String) (c : LockConf) : Prop :=
  (c.pc1 = 1 → k1 ∈ c.held) ∧ (c.pc2 = 1 → k2 ∈ c.held) ∧
    (c.pc1 = 1 → c.pc2 = 1 → k1 ≠ k2)

/-! ## Concrete environments used by the witnesses -/

/-- A concrete application registration model. -/
def model0 : AppRegModel :=
  { displayName := "n"
    description := ""
    groupMembershipClaims := []
    homepageUrl := ""
    implicitAccessTokenIssuanceEnabled := false
    implicitIdTokenIssuanceEnabled := false
    logoutUrl := ""
    marketingUrl := ""
    notes := ""
    privacyStatementUrl := ""
    requestedAccessTokenVersion := 2
    serviceManagementReference := ""
    signInAudience := "AzureADMyOrg"
    supportUrl := ""
    termsOfServiceUrl := "" }

/-- Change flags with only the display name flagged as changed. -/
def changesDisplayNameOnly : AppRegChanges :=
  { displayName := true
    description := false
    groupMembershipClaims := false
    homepageUrl := false
    implicitAccessTokenIssuanceEnabled := false
    implicitIdTokenIssuanceEnabled := false
    logoutUrl := false
    marketingUrl := false
    notes := false
    privacyStatementUrl := false
    requestedAccessTokenVersion := false
    serviceManagementReference := false
    signInAudience := false
    supportUrl := false
    termsOfServiceUrl := false }

/-- A concrete environment for the administrative unit member Create:
the administrative unit exists, the member is not yet a member, the
principal object resolves, the add call succeeds and the poll sees three
consecutive present observations. -/
def envC0 : AuMemberCreateEnv :=
  { auId := "A"
    memberId := "M"
    getAU := .ok ()
    probeMember := .fail statusNotFound
    getDirObj := .ok (some ())
    addMembersRes := .ok ()
    hasDeadline := true
    pollProbes := [.ok (), .ok (), .ok ()]
    readResult := .ok () }

/-- A concrete environment for the administrative unit member Delete:
the remove call succeeds and the absence poll observes a 404. -/
def envD0 : AuMemberDeleteEnv :=
  { idOk := true
    auId := "A"
    memberId := "M"
    removeMembersRes := .ok ()
    deletionProbes := [.fail statusNotFound] }

/-- A concrete environment for the application registration Update. -/
def envU0 : AppRegUpdateEnv :=
  { idOk := true
    decodeOk := true
    appId := "O"
    model := model0
    changes := changesDisplayNameOnly
    updateResult := .ok () }

end AzureAD

namespace AzureAD

/-- C10: for every raw state map, the v1-to-v2 application state upgrade
returns an error exactly when the existing `"id"` value is not a
parseable UUID; when it is a UUID, the upgrade replaces `"id"` with the
v2-format application ID derived from the old UUID and leaves every
other key of the state map unchanged. -/
theorem C10_state_upgrade_v1_to_v2 (s : RawState) :
    ((ResourceApplicationInstanceStateUpgradeV1 s).isOk ↔ parseUUIDOk s.id) ∧
    (parseUUIDOk s.id →
      ResourceApplicationInstanceStateUpgradeV1 s =
        Except.ok { id := applicationIdString s.id, other := s.other }) := by
  constructor
  · unfold ResourceApplicationInstanceStateUpgradeV1
    by_cases h : parseUUIDOk s.id <;> simp [h, Except.isOk, Except.toBool]
  · intro h
    unfold ResourceApplicationInstanceStateUpgradeV1
    simp [h]

/-- Witness for C10 at a concrete valid UUID: the upgrade succeeds and
rewrites the ID into the v2 format, keeping the other entry intact. -/
theorem C10_state_upgrade_v1_to_v2_witness :
    ((ResourceApplicationInstanceStateUpgradeV1
        { id := "00000000-0000-0000-0000-000000000000",
          other := [("display_name", "app")] }).isOk ↔
      parseUUIDOk "00000000-0000-0000-0000-000000000000") ∧
    (parseUUIDOk "00000000-0000-0000-0000-000000000000" →
      ResourceApplicationInstanceStateUpgradeV1
          { id := "00000000-0000-0000-0000-000000000000",
            other := [("display_name", "app")] } =
        Except.ok
          { id := applicationIdString "00000000-0000-0000-0000-000000000000",
            other := [("display_name", "app")] }) :=
  C10_state_upgrade_v1_to_v2
    { id := "00000000-0000-0000-0000-000000000000",
      other := [("display_name", "app")] }

/-- Helper: whenever the poller reports success on its `n`-th refresh
call, the `consec` target observations already credited together with
the first `n` scripted observations end in `need` consecutive target
observations. -/
theorem pollRun_success_hysteresis (obs : List PollObs) :
    ∀ need consec n, pollRun need consec obs = PollOut.success n →
      ∃ pre, List.replicate consec PollObs.done ++ obs.take n =
        pre ++ List.replicate need PollObs.done := by
  induction obs with
  | nil =>
    intro need consec n h
    simp [pollRun] at h
  | cons o rest ih =>
    intro need consec n h
    cases o with
    | errored => simp [pollRun] at h
    | waiting =>
      rw [pollRun] at h
      cases hrec : pollRun need 0 rest with
      | success m =>
        rw [hrec] at h
        simp only [PollOut.countUp, PollOut.success.injEq] at h
        subst h
        obtain ⟨pre, hpre⟩ := ih need 0 m hrec
        simp only [List.replicate_zero, List.nil_append] at hpre
        refine ⟨List.replicate consec PollObs.done ++ PollObs.waiting :: pre, ?_⟩
        simp [List.take_succ_cons, hpre]
      | fatal => rw [hrec] at h; simp [PollOut.countUp] at h
      | timeout => rw [hrec] at h; simp [PollOut.countUp] at h
    | done =>
      rw [pollRun] at h
      by_cases hle : need ≤ consec + 1
      · simp only [hle, if_true, PollOut.success.injEq] at h
        subst h
        refine ⟨List.replicate (consec + 1 - need) PollObs.done, ?_⟩
        have hsplit : consec + 1 - need + need = consec + 1 := Nat.sub_add_cancel hle
        calc List.replicate consec PollObs.done ++ (PollObs.done :: rest).take 1
            = List.replicate consec PollObs.done ++ [PollObs.done] := by
              simp [List.take_succ_cons]
          _ = List.replicate (consec + 1) PollObs.done := by
              rw [← List.replicate_succ']
          _ = List.replicate (consec + 1 - need + need) PollObs.done := by
              rw [hsplit]
          _ = List.replicate (consec + 1 - need) PollObs.done ++
                List.replicate need PollObs.done := by
              rw [List.replicate_add]
      · simp only [hle, if_false, ite_false] at h
        cases hrec : pollRun need (consec + 1) rest with
        | success m =>
          rw [hrec] at h
          simp only [PollOut.countUp, PollOut.success.injEq] at h
          subst h
          obtain ⟨pre, hpre⟩ := ih need (consec + 1) m hrec
          refine ⟨pre, ?_⟩
          calc List.replicate consec PollObs.done ++ (PollObs.done :: rest).take (m + 1)
              = List.replicate consec PollObs.done ++ PollObs.done :: rest.take m := by
                simp [List.take_succ_cons]
            _ = (List.replicate consec PollObs.done ++ [PollObs.done]) ++ rest.take m := by
                simp
            _ = List.replicate (consec + 1) PollObs.done ++ rest.take m := by
                rw [← List.replicate_succ']
            _ = pre ++ List.replicate need PollObs.done := hpre
        | fatal => rw [hrec] at h; simp [PollOut.countUp] at h
        | timeout => rw [hrec] at h; simp [PollOut.countUp] at h

/-- C1: the post-create visibility poll of the administrative unit
member resource reports success only after the target state has been
observed for 3 consecutive observations (the configured hysteresis),
with a configured minimum inter-probe interval of 1 second; on the
scripted probe sequence absent, present, absent, present, present,
present the poll succeeds exactly on the sixth probe call, and on every
shorter prefix of that script it does not succeed. -/
theorem C1_poll_hysteresis :
    (∀ probes n, auCreatePoll probes = PollOut.success n →
      ∃ pre, (probes.map auCreateRefresh).take n =
        pre ++ [PollObs.done, PollObs.done, PollObs.done]) ∧
    auCreatePollConf.continuousTargetOccurence = 3 ∧
    auCreatePollConf.minTimeoutSeconds = 1 ∧
    auCreatePoll flipProbeSeq = PollOut.success 6 ∧
    (∀ m, m < 6 → auCreatePoll (flipProbeSeq.take m) = PollOut.timeout) := by
  refine ⟨?_, rfl, rfl, by decide, by decide⟩
  intro probes n h
  have hgen := pollRun_success_hysteresis (probes.map auCreateRefresh) 3 0 n h
  simpa [List.replicate] using hgen

/-- Witness for C1: the hysteresis conclusion instantiated on the
scripted flip sequence, whose poll succeeds on the sixth call. -/
theorem C1_poll_hysteresis_witness :
    ∃ pre, (flipProbeSeq.map auCreateRefresh).take 6 =
      pre ++ [PollObs.done, PollObs.done, PollObs.done] :=
  C1_poll_hysteresis.1 flipProbeSeq 6 (by decide)

/-- Helper: `LockInv` holds in every reachable configuration of the
two-operation lock model. -/
theorem lockReach_inv (k1 k2 : String) (c : LockConf)
    (h : LockReach k1 k2 c) : LockInv k1 k2 c := by
  induction h with
  | init => exact ⟨by simp, by simp, by simp⟩
  | step c c' hr hs ih =>
    obtain ⟨i1, i2, i3⟩ := ih
    cases hs with
    | lock1 hpc hfree =>
      refine ⟨fun _ => by simp, fun h2 => ?_, fun _ h2 => ?_⟩
      · exact List.mem_cons_of_mem _ (i2 h2)
      · intro heq
        exact hfree (by rw [heq]; exact i2 h2)
    | unlock1 hpc =>
      refine ⟨fun h1 => by simp at h1, fun h2 => ?_, fun h1 => by simp at h1⟩
      have hne : k2 ≠ k1 := fun heq => (i3 hpc h2) heq.symm
      exact (List.mem_erase_of_ne hne).mpr (i2 h2)
    | lock2 hpc hfree =>
      refine ⟨fun h1 => ?_, fun _ => by simp, fun h1 _ => ?_⟩
      · exact List.mem_cons_of_mem _ (i1 h1)
      · intro heq
        exact hfree (by rw [← heq]; exact i1 h1)
    | unlock2 hpc =>
      refine ⟨fun h1 => ?_, fun h2 => by simp at h2, fun _ h2 => by simp at h2⟩
      have hne : k1 ≠ k2 := i3 h1 hpc
      exact (List.mem_erase_of_ne hne).mpr (i1 h1)

/-- C8: in the lock model of the named mutex registry, two concurrent
mutating operations sharing the same lock key are never simultaneously
inside their critical sections (the remote mutating call plus the
consistency poll), while for distinct keys a configuration with both
operations inside their critical sections is reachable. -/
theorem C8_lock_mutual_exclusion (k1 k2 : String) :
    (k1 = k2 → ∀ c, LockReach k1 k2 c → ¬(c.pc1 = 1 ∧ c.pc2 = 1)) ∧
    (k1 ≠ k2 → ∃ c, LockReach k1 k2 c ∧ c.pc1 = 1 ∧ c.pc2 = 1) := by
  constructor
  · rintro rfl c hreach ⟨h1, h2⟩
    exact (lockReach_inv k1 k1 c hreach).2.2 h1 h2 rfl
  · intro hne
    refine ⟨{ pc1 := 1, pc2 := 1, held := [k2, k1] }, ?_, rfl, rfl⟩
    have s1 : LockStep k1 k2 { pc1 := 0, pc2 := 0, held := [] }
        { pc1 := 1, pc2 := 0, held := [k1] } :=
      LockStep.lock1 { pc1 := 0, pc2 := 0, held := [] } rfl (by simp)
    have s2 : LockStep k1 k2 { pc1 := 1, pc2 := 0, held := [k1] }
        { pc1 := 1, pc2 := 1, held := [k2, k1] } :=
      LockStep.lock2 { pc1 := 1, pc2 := 0, held := [k1] } rfl
        (by
          intro hmem
          simp only [List.mem_singleton] at hmem
          exact hne hmem.symm)
    exact LockReach.step _ _ (LockReach.step _ _ LockReach.init s1) s2

/-- Witness for C8: with both operations locking the same key
`administrative unit A` no reachable configuration has both in their
critical sections, and with the distinct keys `A` and `B` an overlapping
configuration is reachable. -/
theorem C8_lock_mutual_exclusion_witness :
    (∀ c, LockReach "A" "A" c → ¬(c.pc1 = 1 ∧ c.pc2 = 1)) ∧
    (∃ c, LockReach "A" "B" c ∧ c.pc1 = 1 ∧ c.pc2 = 1) :=
  ⟨(C8_lock_mutual_exclusion "A" "A").1 rfl,
    (C8_lock_mutual_exclusion "A" "B").2 (by decide)⟩

/-- Helper: the lock/unlock pattern yields exactly one lock event and
one unlock event, opening and closing the trace, whenever the body emits
none of its own. -/
theorem withLock_spec (scope key : String) (body : List Ev × Outcome)
    (hl : body.1.countP isLockEv = 0) (hu : body.1.countP isUnlockEv = 0) :
    (withLock scope key body).1.countP isLockEv = 1 ∧
    (withLock scope key body).1.countP isUnlockEv = 1 ∧
    (withLock scope key body).1.head? = some (Ev.lock scope key) ∧
    (withLock scope key body).1.getLast? = some (Ev.unlock scope key) := by
  unfold withLock
  refine ⟨?_, ?_, rfl, ?_⟩
  · simp [List.countP_cons, List.countP_append, hl, isLockEv, isUnlockEv]
  · simp [List.countP_cons, List.countP_append, hu, isLockEv, isUnlockEv]
  · show ((Ev.lock scope key :: body.1) ++ [Ev.unlock scope key]).getLast? =
      some (Ev.unlock scope key)
    exact List.getLast?_concat _

/-- Helper: the create body (between lock and deferred unlock) emits no
lock or unlock event on any branch. -/
theorem auMemberCreateBody_lockfree (env : AuMemberCreateEnv) :
    (auMemberCreateBody env).1.countP isLockEv = 0 ∧
    (auMemberCreateBody env).1.countP isUnlockEv = 0 := by
  unfold auMemberCreateBody administrativeUnitMemberResourceRead
  constructor <;> (repeat' split) <;> simp [isLockEv, isUnlockEv]

/-- Helper: the delete body emits no lock or unlock event on any
branch. -/
theorem auMemberDeleteBody_lockfree (env : AuMemberDeleteEnv) :
    (auMemberDeleteBody env).1.countP isLockEv = 0 ∧
    (auMemberDeleteBody env).1.countP isUnlockEv = 0 := by
  unfold auMemberDeleteBody
  constructor <;> (repeat' split) <;> simp [isLockEv, isUnlockEv]

/-- Helper: the update body emits no lock or unlock event on any
branch. -/
theorem appRegUpdateBody_lockfree (env : AppRegUpdateEnv) :
    (appRegUpdateBody env).1.countP isLockEv = 0 ∧
    (appRegUpdateBody env).1.countP isUnlockEv = 0 := by
  unfold appRegUpdateBody
  constructor <;> (repeat' split) <;> simp [isLockEv, isUnlockEv]

/-- C7: every mutating operation that acquires a named parent lock (the
administrative unit member Create and Delete, and the application
registration Update) emits exactly one lock and exactly one unlock event
on every exit path — the trace opens with the lock and closes with the
unlock of the same (scope, key) pair, for every possible combination of
remote responses. -/
theorem C7_unlock_exactly_once :
    (∀ env : AuMemberCreateEnv,
      (administrativeUnitMemberResourceCreate env).1.countP isLockEv = 1 ∧
      (administrativeUnitMemberResourceCreate env).1.countP isUnlockEv = 1 ∧
      (administrativeUnitMemberResourceCreate env).1.head? =
        some (Ev.lock administrativeUnitResourceName env.auId) ∧
      (administrativeUnitMemberResourceCreate env).1.getLast? =
        some (Ev.unlock administrativeUnitResourceName env.auId)) ∧
    (∀ env : AuMemberDeleteEnv, env.idOk = true →
      (administrativeUnitMemberResourceDelete env).1.countP isLockEv = 1 ∧
      (administrativeUnitMemberResourceDelete env).1.countP isUnlockEv = 1 ∧
      (administrativeUnitMemberResourceDelete env).1.head? =
        some (Ev.lock administrativeUnitResourceName env.auId) ∧
      (administrativeUnitMemberResourceDelete env).1.getLast? =
        some (Ev.unlock administrativeUnitResourceName env.auId)) ∧
    (∀ env : AppRegUpdateEnv, env.idOk = true → env.decodeOk = true →
      (ApplicationRegistrationResourceUpdate env).1.countP isLockEv = 1 ∧
      (ApplicationRegistrationResourceUpdate env).1.countP isUnlockEv = 1 ∧
      (ApplicationRegistrationResourceUpdate env).1.head? =
        some (Ev.lock applicationResourceName env.appId) ∧
      (ApplicationRegistrationResourceUpdate env).1.getLast? =
        some (Ev.unlock applicationResourceName env.appId)) := by
  refine ⟨fun env => ?_, fun env h => ?_, fun env h1 h2 => ?_⟩
  · have hb := auMemberCreateBody_lockfree env
    unfold administrativeUnitMemberResourceCreate
    exact withLock_spec _ _ _ hb.1 hb.2
  · have hb := auMemberDeleteBody_lockfree env
    have e1 : administrativeUnitMemberResourceDelete env =
        withLock administrativeUnitResourceName env.auId (auMemberDeleteBody env) := by
      unfold administrativeUnitMemberResourceDelete
      rw [h]
      rfl
    rw [e1]
    exact withLock_spec _ _ _ hb.1 hb.2
  · have hb := appRegUpdateBody_lockfree env
    have e1 : ApplicationRegistrationResourceUpdate env =
        withLock applicationResourceName env.appId (appRegUpdateBody env) := by
      unfold ApplicationRegistrationResourceUpdate
      rw [h1, h2]
      rfl
    rw [e1]
    exact withLock_spec _ _ _ hb.1 hb.2

/-- Witness for C7: each conjunct applied at a concrete environment,
discharging the parse and decode hypotheses. -/
theorem C7_unlock_exactly_once_witness :
    (administrativeUnitMemberResourceCreate envC0).1.getLast? =
      some (Ev.unlock administrativeUnitResourceName "A") ∧
    (administrativeUnitMemberResourceDelete envD0).1.getLast? =
      some (Ev.unlock administrativeUnitResourceName "A") ∧
    (ApplicationRegistrationResourceUpdate envU0).1.getLast? =
      some (Ev.unlock applicationResourceName "O") :=
  ⟨(C7_unlock_exactly_once.1 envC0).2.2.2,
    (C7_unlock_exactly_once.2.1 envD0 rfl).2.2.2,
    (C7_unlock_exactly_once.2.2 envU0 rfl rfl).2.2.2⟩

/-- C9: the eligibility schedule request Read evaluated at remote List
results the API can return is not total.  With a single returned request
whose status is Granted and whose Justification pointer is nil, the Read
dereferences the nil pointer and panics instead of returning state or an
error; with a nil slice pointer from List, the length check panics.
This contradicts the claimed totality; the sibling assignment schedule
Read reads the same fields nil-safely, showing the intent. -/
theorem C9_eligibility_read_nil_deref :
    PrivilegedAccessGroupEligibilityScheduleRequestResourceRead
      { idOk := true, decodeOk := true,
        requestsList := .ok (some
          [{ id := some "r1", accessId := "member", groupId := some "g",
             justification := none, principalId := some "p",
             scheduleInfo := none, status := PagStatusGranted,
             targetScheduleId := none, ticketInfo := none }]) } =
      Outcome.panicked ∧
    PrivilegedAccessGroupEligibilityScheduleRequestResourceRead
      { idOk := true, decodeOk := true, requestsList := .ok none } =
      Outcome.panicked :=
  ⟨rfl, rfl⟩

/-- C4: for each embedded Read, a 404 reported by the remote fetch of
the primary identity yields the mark-as-gone signal with no error, and
any other remote fetch failure surfaces an error: the administrative
unit member Read, the application registration Read, and the assignment
schedule Read (whose identity is absent when the schedule fetch reports
404 and the request list is empty or nil; a failing List call is
surfaced). -/
theorem C4_read_404_drops_state :
    (∀ auId memberId,
      (administrativeUnitMemberResourceRead
        { idOk := true, auId := auId, memberId := memberId,
          getMember := .fail statusNotFound }).2 = Outcome.gone) ∧
    (∀ auId memberId s, s ≠ statusNotFound →
      (administrativeUnitMemberResourceRead
        { idOk := true, auId := auId, memberId := memberId,
          getMember := .fail s }).2 = Outcome.errorDiag "retrieving member") ∧
    (∀ appId,
      (ApplicationRegistrationResourceRead
        { idOk := true, appId := appId,
          getResult := .fail statusNotFound }).2 = Outcome.gone) ∧
    (∀ appId s, s ≠ statusNotFound →
      (ApplicationRegistrationResourceRead
        { idOk := true, appId := appId, getResult := .fail s }).2 =
        Outcome.errorDiag "retrieving application") ∧
    (PrivilegedAccessGroupAssignmentScheduleResourceRead
      { idOk := true, decodeOk := true, scheduleGet := .fail statusNotFound,
        requestsList := .ok none } = Outcome.gone) ∧
    (PrivilegedAccessGroupAssignmentScheduleResourceRead
      { idOk := true, decodeOk := true, scheduleGet := .fail statusNotFound,
        requestsList := .ok (some []) } = Outcome.gone) ∧
    (∀ s rl, s ≠ statusNotFound →
      PrivilegedAccessGroupAssignmentScheduleResourceRead
        { idOk := true, decodeOk := true, scheduleGet := .fail s,
          requestsList := rl } = Outcome.errorDiag "retrieving schedule") ∧
    (∀ s2, PrivilegedAccessGroupAssignmentScheduleResourceRead
        { idOk := true, decodeOk := true, scheduleGet := .fail statusNotFound,
          requestsList := .fail s2 } = Outcome.errorDiag "listing requests") := by
  refine ⟨fun auId memberId => rfl, fun auId memberId s hs => ?_,
    fun appId => rfl, fun appId s hs => ?_, rfl, rfl, fun s rl hs => ?_,
    fun s2 => rfl⟩
  · unfold administrativeUnitMemberResourceRead
    simp [hs]
  · unfold ApplicationRegistrationResourceRead
    simp [hs]
  · unfold PrivilegedAccessGroupAssignmentScheduleResourceRead
    simp [hs]

/-- Witness for C4: the non-404 branches instantiated at HTTP status
500. -/
theorem C4_read_404_drops_state_witness :
    (administrativeUnitMemberResourceRead
      { idOk := true, auId := "A", memberId := "M",
        getMember := .fail 500 }).2 = Outcome.errorDiag "retrieving member" ∧
    (ApplicationRegistrationResourceRead
      { idOk := true, appId := "O", getResult := .fail 500 }).2 =
      Outcome.errorDiag "retrieving application" ∧
    PrivilegedAccessGroupAssignmentScheduleResourceRead
      { idOk := true, decodeOk := true, scheduleGet := .fail 500,
        requestsList := .ok (some []) } = Outcome.errorDiag "retrieving schedule" :=
  ⟨C4_read_404_drops_state.2.1 "A" "M" 500 (by decide),
    C4_read_404_drops_state.2.2.2.1 "O" 500 (by decide),
    C4_read_404_drops_state.2.2.2.2.2.2.1 500 (.ok (some [])) (by decide)⟩

/-- Counterexample to C2 as stated: the application registration Delete,
evaluated where the remote Delete call reports HTTP 404 (the application
is already absent), returns an error diagnostic — not success — because
the source surfaces every error of the delete call with no not-found
special case. -/
theorem C2_counterexample_app_delete_404 :
    (ApplicationRegistrationResourceDelete
      { idOk := true, appId := "O", deleteResult := .fail statusNotFound,
        deletionProbes := [] }).2 = Outcome.errorDiag "deleting application" :=
  rfl

/-- C2 amended: the cancel and revoke delete paths of the privileged
access group schedules treat a 404 from their remote call as success
(mark-as-gone), and the deletion-wait polls treat a 404 probe as
completion; but the administrative unit member removal and the
application registration deletion surface a 404 from the remote
delete/remove call itself as an error. -/
theorem C2_idempotent_delete_amended :
    cancelAssignmentRequest (.fail statusNotFound) = Outcome.gone ∧
    revokeAssignmentRequest (.fail statusNotFound) = Outcome.gone ∧
    cancelEligibilityRequest (.fail statusNotFound) = Outcome.gone ∧
    revokeEligibilityRequest (.fail statusNotFound) = Outcome.gone ∧
    (∀ env : AuMemberDeleteEnv, env.idOk = true →
      env.removeMembersRes = .fail statusNotFound →
      (administrativeUnitMemberResourceDelete env).2 =
        Outcome.errorDiag "removing member from administrative unit") ∧
    (∀ env : AppRegDeleteEnv, env.idOk = true →
      env.deleteResult = .fail statusNotFound →
      (ApplicationRegistrationResourceDelete env).2 =
        Outcome.errorDiag "deleting application") ∧
    waitForDeletion [.fail statusNotFound] = PollOut.success 1 := by
  refine ⟨rfl, rfl, rfl, rfl, fun env h1 h2 => ?_, fun env h1 h2 => ?_, rfl⟩
  · unfold administrativeUnitMemberResourceDelete withLock auMemberDeleteBody
    rw [h1, h2]
    rfl
  · unfold ApplicationRegistrationResourceDelete
    rw [h1, h2]
    rfl

/-- Witness for C2 amended: the delete operations instantiated where the
remote delete/remove call reports 404. -/
theorem C2_idempotent_delete_amended_witness :
    (administrativeUnitMemberResourceDelete
      { idOk := true, auId := "A", memberId := "M",
        removeMembersRes := .fail statusNotFound, deletionProbes := [] }).2 =
      Outcome.errorDiag "removing member from administrative unit" ∧
    (ApplicationRegistrationResourceDelete
      { idOk := true, appId := "P", deleteResult := .fail statusNotFound,
        deletionProbes := [] }).2 = Outcome.errorDiag "deleting application" :=
  ⟨C2_idempotent_delete_amended.2.2.2.2.1 _ rfl rfl,
    C2_idempotent_delete_amended.2.2.2.2.2.1 _ rfl rfl⟩

/-- Counterexample to C3 as stated: the application registration Create,
evaluated at a successful remote create call, performs no existence
probe — its whole event trace is the single remote mutating create
call — and returns success, so this Create neither probes first nor
withholds the mutating call pending a not-found probe result. -/
theorem C3_counterexample_app_create_no_probe :
    ApplicationRegistrationResourceCreate
      { decodeOk := true, createResult := .ok (some "O") } =
      ([Ev.createApplication], Outcome.done) :=
  rfl

/-- C3 amended: the administrative unit member Create probes first and,
when the probe finds the member already present, fails with the
import-as-exists condition and issues no remote mutating call; the
application registration Create issues the remote create call with no
existence probe (its trace is exactly the create call). -/
theorem C3_duplicate_create_amended :
    (∀ env : AuMemberCreateEnv, env.getAU = .ok () → env.probeMember = .ok () →
      (administrativeUnitMemberResourceCreate env).2 = Outcome.importAsExists ∧
      (administrativeUnitMemberResourceCreate env).1.countP isMutatingEv = 0) ∧
    (∀ env : AppRegCreateEnv, env.decodeOk = true →
      (ApplicationRegistrationResourceCreate env).1 = [Ev.createApplication]) := by
  constructor
  · intro env h1 h2
    unfold administrativeUnitMemberResourceCreate withLock auMemberCreateBody
    rw [h1, h2]
    exact ⟨rfl, rfl⟩
  · intro env h
    obtain ⟨d, cr⟩ := env
    subst h
    cases cr with
    | fail s => rfl
    | ok idOpt =>
      have hred : ApplicationRegistrationResourceCreate
          { decodeOk := true, createResult := .ok idOpt } =
          if (idOpt.getD "" == "") = true then
            ([Ev.createApplication],
              Outcome.errorDiag "object ID returned for application is nil or empty")
          else ([Ev.createApplication], Outcome.done) := rfl
      rw [hred]
      by_cases hc : (idOpt.getD "" == "") = true
      · rw [if_pos hc]
      · rw [if_neg hc]

/-- Witness for C3 amended: the member Create instantiated where the
probe finds the member already present, and the application Create
instantiated at a failing remote call. -/
theorem C3_duplicate_create_amended_witness :
    (administrativeUnitMemberResourceCreate
      { auId := "A", memberId := "M", getAU := .ok (), probeMember := .ok (),
        getDirObj := .ok (some ()), addMembersRes := .ok (),
        hasDeadline := true, pollProbes := [], readResult := .ok () }).2 =
      Outcome.importAsExists ∧
    (ApplicationRegistrationResourceCreate
      { decodeOk := true, createResult := .fail 403 }).1 =
      [Ev.createApplication] :=
  ⟨(C3_duplicate_create_amended.1 _ rfl rfl).1,
    C3_duplicate_create_amended.2 _ rfl⟩

/-- Counterexample to C5 as stated: the privileged access group
assignment schedule Update builds its outgoing request from the full
decoded model without consulting any changed-attribute flag, so with a
justification that was not flagged as changed the request still carries
it. -/
theorem C5_counterexample_pag_update_full_payload :
    (pagAssignmentUpdatePayload
      { assignmentType := "member", principalId := "p", groupId := "g",
        justification := "reason", ticketNumber := "", ticketSystem := "" }
      { startDateTime := none, expiration := none }).justification =
      some "reason" :=
  rfl

/-- C5 amended: the application registration Update's outgoing payload
contains an attribute exactly when the caller flagged it as changed,
for all fifteen updatable attributes; the privileged access group
assignment schedule Update instead always submits a full new schedule
request carrying the principal, group, justification and schedule
regardless of which attributes changed. -/
theorem C5_minimal_update_amended :
    (∀ (m : AppRegModel) (ch : AppRegChanges) (appId : String),
      (appRegUpdatePayload m ch appId).hasDisplayName = ch.displayName ∧
      (appRegUpdatePayload m ch appId).hasDescription = ch.description ∧
      (appRegUpdatePayload m ch appId).hasGroupMembershipClaims =
        ch.groupMembershipClaims ∧
      (appRegUpdatePayload m ch appId).hasNotes = ch.notes ∧
      (appRegUpdatePayload m ch appId).hasRequestedAccessTokenVersion =
        ch.requestedAccessTokenVersion ∧
      (appRegUpdatePayload m ch appId).hasServiceManagementReference =
        ch.serviceManagementReference ∧
      (appRegUpdatePayload m ch appId).hasSignInAudience = ch.signInAudience ∧
      (appRegUpdatePayload m ch appId).hasMarketingUrl = ch.marketingUrl ∧
      (appRegUpdatePayload m ch appId).hasPrivacyStatementUrl =
        ch.privacyStatementUrl ∧
      (appRegUpdatePayload m ch appId).hasSupportUrl = ch.supportUrl ∧
      (appRegUpdatePayload m ch appId).hasTermsOfServiceUrl =
        ch.termsOfServiceUrl ∧
      (appRegUpdatePayload m ch appId).hasHomepageUrl = ch.homepageUrl ∧
      (appRegUpdatePayload m ch appId).hasLogoutUrl = ch.logoutUrl ∧
      (appRegUpdatePayload m ch appId).hasImplicitAccessTokenIssuance =
        ch.implicitAccessTokenIssuanceEnabled ∧
      (appRegUpdatePayload m ch appId).hasImplicitIdTokenIssuance =
        ch.implicitIdTokenIssuanceEnabled) ∧
    (∀ (m : PagScheduleModel) (schedule : RequestSchedule),
      (pagAssignmentUpdatePayload m schedule).justification =
        some m.justification ∧
      (pagAssignmentUpdatePayload m schedule).principalId = some m.principalId ∧
      (pagAssignmentUpdatePayload m schedule).groupId = some m.groupId ∧
      (pagAssignmentUpdatePayload m schedule).scheduleInfo = some schedule) := by
  constructor
  · intro m ch appId
    refine ⟨?_, ?_, ?_, ?_, ?_, ?_, ?_, ?_, ?_, ?_, ?_, ?_, ?_, ?_, ?_⟩
    · cases h : ch.displayName <;>
        simp [appRegUpdatePayload, MsgraphApplication.hasDisplayName, h]
    · cases h : ch.description <;>
        simp [appRegUpdatePayload, MsgraphApplication.hasDescription, h]
    · cases h : ch.groupMembershipClaims <;>
        simp [appRegUpdatePayload, MsgraphApplication.hasGroupMembershipClaims, h]
    · cases h : ch.notes <;>
        simp [appRegUpdatePayload, MsgraphApplication.hasNotes, h]
    · cases h : ch.requestedAccessTokenVersion <;>
        simp [appRegUpdatePayload,
          MsgraphApplication.hasRequestedAccessTokenVersion, h]
    · cases h : ch.serviceManagementReference <;>
        simp [appRegUpdatePayload,
          MsgraphApplication.hasServiceManagementReference, h]
    · cases h : ch.signInAudience <;>
        simp [appRegUpdatePayload, MsgraphApplication.hasSignInAudience, h]
    · cases h1 : ch.marketingUrl <;> cases h2 : ch.privacyStatementUrl <;>
        cases h3 : ch.supportUrl <;> cases h4 : ch.termsOfServiceUrl <;>
        simp [appRegUpdatePayload, MsgraphApplication.hasMarketingUrl,
          h1, h2, h3, h4]
    · cases h1 : ch.marketingUrl <;> cases h2 : ch.privacyStatementUrl <;>
        cases h3 : ch.supportUrl <;> cases h4 : ch.termsOfServiceUrl <;>
        simp [appRegUpdatePayload, MsgraphApplication.hasPrivacyStatementUrl,
          h1, h2, h3, h4]
    · cases h1 : ch.marketingUrl <;> cases h2 : ch.privacyStatementUrl <;>
        cases h3 : ch.supportUrl <;> cases h4 : ch.termsOfServiceUrl <;>
        simp [appRegUpdatePayload, MsgraphApplication.hasSupportUrl,
          h1, h2, h3, h4]
    · cases h1 : ch.marketingUrl <;> cases h2 : ch.privacyStatementUrl <;>
        cases h3 : ch.supportUrl <;> cases h4 : ch.termsOfServiceUrl <;>
        simp [appRegUpdatePayload, MsgraphApplication.hasTermsOfServiceUrl,
          h1, h2, h3, h4]
    · cases h1 : ch.implicitAccessTokenIssuanceEnabled <;>
        cases h2 : ch.homepageUrl <;>
        cases h3 : ch.implicitIdTokenIssuanceEnabled <;>
        cases h4 : ch.logoutUrl <;>
        simp [appRegUpdatePayload, MsgraphApplication.hasHomepageUrl,
          h1, h2, h3, h4]
    · cases h1 : ch.implicitAccessTokenIssuanceEnabled <;>
        cases h2 : ch.homepageUrl <;>
        cases h3 : ch.implicitIdTokenIssuanceEnabled <;>
        cases h4 : ch.logoutUrl <;>
        simp [appRegUpdatePayload, MsgraphApplication.hasLogoutUrl,
          h1, h2, h3, h4]
    · cases h1 : ch.implicitAccessTokenIssuanceEnabled <;>
        cases h2 : ch.homepageUrl <;>
        cases h3 : ch.implicitIdTokenIssuanceEnabled <;>
        cases h4 : ch.logoutUrl <;>
        simp [appRegUpdatePayload,
          MsgraphApplication.hasImplicitAccessTokenIssuance, h1, h2, h3, h4]
    · cases h1 : ch.implicitAccessTokenIssuanceEnabled <;>
        cases h2 : ch.homepageUrl <;>
        cases h3 : ch.implicitIdTokenIssuanceEnabled <;>
        cases h4 : ch.logoutUrl <;>
        simp [appRegUpdatePayload,
          MsgraphApplication.hasImplicitIdTokenIssuance, h1, h2, h3, h4]
  · intro m schedule
    exact ⟨rfl, rfl, rfl, rfl⟩

/-- Helper: the administrative unit member Create returns success (a
plain return or mark-as-gone from the trailing read) only when the
visibility poll succeeded. -/
theorem auMemberCreate_success_requires_poll (env : AuMemberCreateEnv)
    (h : (administrativeUnitMemberResourceCreate env).2 = Outcome.done ∨
      (administrativeUnitMemberResourceCreate env).2 = Outcome.gone) :
    ∃ n, auCreatePoll env.pollProbes = PollOut.success n := by
  rcases h with h | h <;>
    (unfold administrativeUnitMemberResourceCreate withLock auMemberCreateBody at h;
      dsimp only at h;
      repeat' split at h) <;>
    first
      | exact ⟨_, by assumption⟩
      | simp at h

/-- Helper: the administrative unit member Delete returns success only
when the absence poll succeeded. -/
theorem auMemberDelete_success_requires_poll (env : AuMemberDeleteEnv)
    (h : (administrativeUnitMemberResourceDelete env).2 = Outcome.done) :
    ∃ n, waitForDeletion env.deletionProbes = PollOut.success n := by
  unfold administrativeUnitMemberResourceDelete withLock auMemberDeleteBody at h
  repeat' split at h
  all_goals first
    | exact ⟨_, by assumption⟩
    | simp at h

/-- Helper: the application registration Delete returns success only
when the absence poll succeeded. -/
theorem appRegDelete_success_requires_poll (env : AppRegDeleteEnv)
    (h : (ApplicationRegistrationResourceDelete env).2 = Outcome.done) :
    ∃ n, waitForDeletion env.deletionProbes = PollOut.success n := by
  unfold ApplicationRegistrationResourceDelete at h
  repeat' split at h
  all_goals first
    | exact ⟨_, by assumption⟩
    | simp at h

/-- Helper: the application registration Create performs no
visibility or absence poll on any branch. -/
theorem appRegCreate_no_poll (env : AppRegCreateEnv) :
    (ApplicationRegistrationResourceCreate env).1.countP isPollEv = 0 := by
  unfold ApplicationRegistrationResourceCreate
  repeat' split
  all_goals simp [isPollEv]

/-- Counterexample to C6 as stated: the application registration Create,
evaluated at a successful remote create call, returns success with a
trace consisting of the single remote create call and containing no
visibility poll. -/
theorem C6_counterexample_app_create_no_poll :
    ApplicationRegistrationResourceCreate
      { decodeOk := true, createResult := .ok (some "P") } =
      ([Ev.createApplication], Outcome.done) ∧
    List.countP isPollEv [Ev.createApplication] = 0 :=
  ⟨rfl, rfl⟩

/-- C6 amended: the administrative unit member Create returns success
only when its visibility poll succeeded, and the administrative unit
member Delete and the application registration Delete return success
only when their absence poll succeeded; the application registration
Create performs no poll at all. -/
theorem C6_poll_before_success_amended :
    (∀ env : AuMemberCreateEnv,
      ((administrativeUnitMemberResourceCreate env).2 = Outcome.done ∨
        (administrativeUnitMemberResourceCreate env).2 = Outcome.gone) →
      ∃ n, auCreatePoll env.pollProbes = PollOut.success n) ∧
    (∀ env : AuMemberDeleteEnv,
      (administrativeUnitMemberResourceDelete env).2 = Outcome.done →
      ∃ n, waitForDeletion env.deletionProbes = PollOut.success n) ∧
    (∀ env : AppRegDeleteEnv,
      (ApplicationRegistrationResourceDelete env).2 = Outcome.done →
      ∃ n, waitForDeletion env.deletionProbes = PollOut.success n) ∧
    (∀ env : AppRegCreateEnv,
      (ApplicationRegistrationResourceCreate env).1.countP isPollEv = 0) :=
  ⟨auMemberCreate_success_requires_poll, auMemberDelete_success_requires_poll,
    appRegDelete_success_requires_poll, appRegCreate_no_poll⟩

/-- Witness for C6 amended: the implications instantiated at concrete
successful runs. -/
theorem C6_poll_before_success_amended_witness :
    (∃ n, auCreatePoll envC0.pollProbes = PollOut.success n) ∧
    (∃ n, waitForDeletion envD0.deletionProbes = PollOut.success n) ∧
    (∃ n, waitForDeletion
      ({ idOk := true, appId := "O", deleteResult := .ok (),
         deletionProbes := [.fail statusNotFound] } : AppRegDeleteEnv).deletionProbes =
      PollOut.success n) :=
  ⟨C6_poll_before_success_amended.1 envC0 (Or.inl (by decide)),
    C6_poll_before_success_amended.2.1 envD0 (by decide),
    C6_poll_before_success_amended.2.2.1
      { idOk := true, appId := "O", deleteResult := .ok (),
        deletionProbes := [.fail statusNotFound] } (by decide)⟩

end AzureAD
